import Mathlib

/-!
Verification development for the TicTacToe (team bingo) repository.

The definitions below are a shallow embedding of the session/game logic in
`src/my-game/src/App.tsx`.  Store round-trips (Supabase reads/updates) are
modelled as pure functions on explicit record values: an `update` on a row
becomes a function from the old record to the new one, an `insert` becomes a
cons onto the list of existing rows, and the DB-generated id of an inserted
row is passed in as an explicit parameter.  Transient store failures (the
`error` branches that merely log and return `null`/`false`) are outside the
pure model; every theorem speaks about the success path of the store,
which is the path the specification describes.

JavaScript array semantics are kept: reading `board[square]` out of range
yields `undefined`, modelled as `none`; in-range reads yield the cell.
-/

/-- Cell values of the 25-cell board: `'empty' | 'red' | 'purple'`. -/
inductive Cell where
  | empty : Cell
  | red : Cell
  | purple : Cell
deriving DecidableEq, Repr, Inhabited

/-- The two competing sides: `'red' | 'purple'`. -/
inductive Team where
  | red : Team
  | purple : Team
deriving DecidableEq, Repr, Inhabited

/-- The cell written for a side (the TS code stores the same string). -/
def Team.toCell : Team → Cell
  | .red => Cell.red
  | .purple => Cell.purple

/-- The opposite side; `team === 'red' ? 'purple' : 'red'` in `makeMove`. -/
def Team.other : Team → Team
  | .red => Team.purple
  | .purple => Team.red

/-- Game status values: `'lobby' | 'in_progress' | 'ended'`. -/
inductive GameStatus where
  | lobby : GameStatus
  | in_progress : GameStatus
  | ended : GameStatus
deriving DecidableEq, Repr, Inhabited

/-- Room status values: `'waiting' | 'full' | 'in_progress' | 'finished'`. -/
inductive RoomStatus where
  | waiting : RoomStatus
  | full : RoomStatus
  | in_progress : RoomStatus
  | finished : RoomStatus
deriving DecidableEq, Repr, Inhabited

/-- Match status values: `'pending' | 'active' | 'completed'`.  The TS field
is optional (`status?`), so records carry `Option MatchStatus`. -/
inductive MatchStatus where
  | pending : MatchStatus
  | active : MatchStatus
  | completed : MatchStatus
deriving DecidableEq, Repr, Inhabited

/-- Mini-game kinds from the `Match` interface. -/
inductive MiniGame where
  | rps : MiniGame
  | tic_tac_toe : MiniGame
  | pong : MiniGame
  | quick_tap : MiniGame
deriving DecidableEq, Repr, Inhabited

/-- The `Player` row (fields relevant to the game logic). -/
structure Player where
  id : String
  username : String
  team : Option Team
  is_ready : Bool
deriving DecidableEq, Repr, Inhabited

/-- The `Game` row. -/
structure Game where
  id : String
  room_id : String
  board_state : List Cell
  current_turn : Team
  status : GameStatus
  winner_team : Option Team
deriving DecidableEq, Repr, Inhabited

/-- The `Match` row (the opaque `game_state` blob and timestamps omitted). -/
structure GameMatch where
  game_id : String
  square : Int
  red_player : String
  purple_player : String
  mini_game : MiniGame
  winner_team : Option Team
  status : Option MatchStatus
deriving DecidableEq, Repr, Inhabited

/-- The store rows `startGame` touches for one room: the room's games
(most recent first, as inserted) and the room's status column. -/
structure RoomState where
  games : List Game
  room_status : RoomStatus
deriving DecidableEq, Repr, Inhabited

/-- JavaScript read `board[square]`: `undefined` (here `none`) when the
index is negative or at least the array length, the stored cell otherwise. -/
def jsGet (board : List Cell) (square : Int) : Option Cell :=
  if square < 0 then none else board.get? square.toNat

/-- JavaScript write `board[square] = c` as `makeMove` uses it.  `makeMove`
only writes after reading `'empty'` at `square`, so the write is always in
range; `List.set` coincides with the JS assignment there. -/
def jsSet (board : List Cell) (square : Int) (c : Cell) : List Cell :=
  if square < 0 then board else board.set square.toNat c

/-- The `lines` array of `checkWinCondition`, verbatim. -/
def lines : List (List Nat) :=
  [ [0, 1, 2, 3, 4],
    [5, 6, 7, 8, 9],
    [10, 11, 12, 13, 14],
    [15, 16, 17, 18, 19],
    [20, 21, 22, 23, 24],
    [0, 5, 10, 15, 20],
    [1, 6, 11, 16, 21],
    [2, 7, 12, 17, 22],
    [3, 8, 13, 18, 23],
    [4, 9, 14, 19, 24],
    [0, 6, 12, 18, 24],
    [4, 8, 12, 16, 20] ]

/-- One iteration of the `for (const line of lines)` loop: the red check,
then the purple check, then fall through. -/
def lineWinner (board : List Cell) (line : List Nat) : Option Team :=
  let lineValues := line.map (fun i => board.get? i)
  if lineValues.all (fun v => v == some Cell.red) then some Team.red
  else if lineValues.all (fun v => v == some Cell.purple) then some Team.purple
  else none

/-- The loop of `checkWinCondition`: return on the first decided line. -/
def checkWinAux (board : List Cell) : List (List Nat) → Option Team
  | [] => none
  | l :: ls =>
    match lineWinner board l with
    | some t => some t
    | none => checkWinAux board ls

/-- `checkWinCondition(board)` from `App.tsx`. -/
def checkWinCondition (board : List Cell) : Option Team :=
  checkWinAux board lines

/-- Modelled from the spec's words, for comparison with the source: the 12
winning lines as the spec describes them — the 5 rows, the 5 columns, and
the 2 full-length diagonals of the 5×5 grid. -/
def specLines : List (List Nat) :=
  (List.range 5).map (fun r => (List.range 5).map (fun c => 5 * r + c))
    ++ (List.range 5).map (fun c => (List.range 5).map (fun r => 5 * r + c))
    ++ [(List.range 5).map (fun k => 6 * k), (List.range 5).map (fun k => 4 + 4 * k)]

/-- Modelled from the spec's words: side `s` has one of the 12 lines with
all 5 of its cells occupied by `s`. -/
def sideHasLine (s : Team) (board : List Cell) : Bool :=
  specLines.any (fun l => l.all (fun i => board.get? i == some s.toCell))

/-- `makeMove(gameId, square, team)`: the fetched game is the argument, and
the returned game is the row after the conditional update.  If the cell is
not `'empty'` (including the out-of-range `undefined` read) the fetched game
is returned unchanged with no update issued. -/
def makeMove (game : Game) (square : Int) (team : Team) : Game :=
  let board := game.board_state
  if jsGet board square ≠ some Cell.empty then game
  else
    let board2 := jsSet board square team.toCell
    let winner := checkWinCondition board2
    let nextTurn := match team with
      | Team.red => Team.purple
      | Team.purple => Team.red
    { game with
        board_state := board2
        current_turn := nextTurn
        winner_team := winner
        status := if winner.isSome then GameStatus.ended else GameStatus.in_progress }

/-- `joinTeam(playerId, team)`: the `players` table update
`{ team, is_ready: false }` on every row with the matching id. -/
def joinTeam (players : List Player) (playerId : String) (team : Team) : List Player :=
  players.map (fun p =>
    if p.id == playerId then { p with team := some team, is_ready := false } else p)

/-- `completeMatch(matchId, winnerTeam)`: the unconditional `matches` update
`{ winner_team: winnerTeam, status: 'completed' }` applied to the row. -/
def completeMatch (m : GameMatch) (winnerTeam : Team) : GameMatch :=
  { m with winner_team := some winnerTeam, status := some MatchStatus.completed }

/-- `updateMatch` simply delegates to `completeMatch`. -/
def updateMatch (m : GameMatch) (winnerTeam : Team) : GameMatch :=
  completeMatch m winnerTeam

/-- `startGame(roomId)`: inserts a fresh game row (board all `'empty'`,
turn `'red'`, status `'in_progress'`) and sets the room's status to
`'in_progress'`.  The DB-generated id of the inserted row is the `freshId`
parameter.  No existing game is consulted. -/
def startGame (s : RoomState) (roomId : String) (freshId : String) : RoomState × Game :=
  let game : Game :=
    { id := freshId
      room_id := roomId
      board_state := List.replicate 25 Cell.empty
      current_turn := Team.red
      status := GameStatus.in_progress
      winner_team := none }
  ({ games := game :: s.games, room_status := RoomStatus.in_progress }, game)

/-- `createMatch(gameId, square, miniGame)`: filters the room roster into the
two sides, fails (returns `null`) when either side is empty, otherwise picks
one representative per side (`Math.floor(Math.random() * len)` modelled as an
arbitrary index reduced mod the side's size) and inserts an active match. -/
def createMatch (game : Game) (players : List Player) (square : Int)
    (miniGame : MiniGame) (redPick purplePick : Nat) : Option GameMatch :=
  let red := players.filter (fun p => p.team == some Team.red)
  let purple := players.filter (fun p => p.team == some Team.purple)
  if red.length = 0 ∨ purple.length = 0 then none
  else
    let redPlayer := red.getD (redPick % red.length) default
    let purplePlayer := purple.getD (purplePick % purple.length) default
    some { game_id := game.id
           square := square
           red_player := redPlayer.id
           purple_player := purplePlayer.id
           mini_game := miniGame
           winner_team := none
           status := some MatchStatus.active }

/-- `LobbyScreen`'s `canStart`: exactly 3 players on each side and every
teamed player ready.  This is the only start affordance in the UI; it is
computed for every participant. -/
def canStart (players : List Player) : Bool :=
  let redPlayers := players.filter (fun p => p.team == some Team.red)
  let purplePlayers := players.filter (fun p => p.team == some Team.purple)
  decide (redPlayers.length = 3) && decide (purplePlayers.length = 3)
    && (redPlayers ++ purplePlayers).all (fun p => p.is_ready)

/-! Concrete store rows used to evaluate the operations on explicit inputs. -/

/-- A freshly started game: all 25 cells empty, red to move. -/
def gFresh : Game :=
  { id := "g1"
    room_id := "r1"
    board_state := List.replicate 25 Cell.empty
    current_turn := Team.red
    status := GameStatus.in_progress
    winner_team := none }

/-- A game whose square 0 is already claimed by red. -/
def gOcc : Game :=
  { gFresh with board_state := Cell.red :: List.replicate 24 Cell.empty }

/-- An ended game: red owns row 1 (cells 5–9) and was recorded as winner;
purple owns cells 0–3 of row 0, cell 4 is still empty. -/
def gEnded : Game :=
  { gFresh with
      board_state :=
        List.replicate 4 Cell.purple ++ [Cell.empty]
          ++ List.replicate 5 Cell.red ++ List.replicate 15 Cell.empty
      status := GameStatus.ended
      winner_team := some Team.red }

/-- A board with red's row 0 complete and nothing else. -/
def rowBoard : List Cell :=
  List.replicate 5 Cell.red ++ List.replicate 20 Cell.empty

/-- A board on which both sides own a complete row. -/
def doubleBoard : List Cell :=
  List.replicate 5 Cell.red ++ List.replicate 5 Cell.purple ++ List.replicate 15 Cell.empty

/-- A completed match already resolved for red. -/
def mDone : GameMatch :=
  { game_id := "g1"
    square := 0
    red_player := "pr"
    purple_player := "pp"
    mini_game := MiniGame.rps
    winner_team := some Team.red
    status := some MatchStatus.completed }

/-- A ready player on the red side. -/
def pRed : Player :=
  { id := "pr", username := "ann", team := some Team.red, is_ready := true }

/-- A ready player on the purple side. -/
def pPurple : Player :=
  { id := "pp", username := "bob", team := some Team.purple, is_ready := true }

/-- A two-player roster with one member per side. -/
def roster : List Player := [pRed, pPurple]

/-- A full lobby: three ready players on each side. -/
def fullRoster : List Player :=
  [ { id := "r1", username := "r1", team := some Team.red, is_ready := true },
    { id := "r2", username := "r2", team := some Team.red, is_ready := true },
    { id := "r3", username := "r3", team := some Team.red, is_ready := true },
    { id := "u1", username := "u1", team := some Team.purple, is_ready := true },
    { id := "u2", username := "u2", team := some Team.purple, is_ready := true },
    { id := "u3", username := "u3", team := some Team.purple, is_ready := true } ]

/-- Room store holding one non-terminal game. -/
def roomState0 : RoomState :=
  { games := [gFresh], room_status := RoomStatus.in_progress }

/-- The match `createMatch gFresh roster 1 quick_tap 0 0` inserts. -/
def mt0 : GameMatch :=
  { game_id := "g1"
    square := 1
    red_player := "pr"
    purple_player := "pp"
    mini_game := MiniGame.quick_tap
    winner_team := none
    status := some MatchStatus.active }

/-! Helper lemmas. -/

/-- The source win-scan list is exactly the spec's 12 lines. -/
theorem lines_eq_specLines : lines = specLines := by decide

/-- Skip path of `makeMove`: a non-`'empty'` read leaves the game as fetched. -/
theorem makeMove_skip (g : Game) (sq : Int) (t : Team)
    (h : jsGet g.board_state sq ≠ some Cell.empty) :
    makeMove g sq t = g := by
  unfold makeMove
  rw [if_pos h]

/-- Write path of `makeMove`: an `'empty'` read produces the conditional
update row. -/
theorem makeMove_write (g : Game) (sq : Int) (t : Team)
    (h : jsGet g.board_state sq = some Cell.empty) :
    makeMove g sq t =
      { g with
          board_state := jsSet g.board_state sq t.toCell
          current_turn := t.other
          winner_team := checkWinCondition (jsSet g.board_state sq t.toCell)
          status :=
            if (checkWinCondition (jsSet g.board_state sq t.toCell)).isSome then
              GameStatus.ended
            else GameStatus.in_progress } := by
  unfold makeMove
  rw [if_neg (not_not_intro h)]
  cases t <;> rfl

/-- `all` over a mapped list, in the applied form used below. -/
theorem all_map_applied {α β : Type} (l : List α) (f : α → β) (p : β → Bool) :
    (l.map f).all p = l.all (fun i => p (f i)) := by
  induction l with
  | nil => rfl
  | cons a l ih => simp [List.all_cons, ih]

/-- Branch form of one scan step. -/
theorem lineWinner_eq (b : List Cell) (l : List Nat) :
    lineWinner b l =
      (if l.all (fun i => b.get? i == some Cell.red) then some Team.red
       else if l.all (fun i => b.get? i == some Cell.purple) then some Team.purple
       else none) := by
  unfold lineWinner
  dsimp only
  rw [all_map_applied, all_map_applied]

/-- A line reported for a side by the scan really is fully that side's. -/
theorem lineWinner_sound (b : List Cell) (l : List Nat) (t : Team)
    (h : lineWinner b l = some t) :
    l.all (fun i => b.get? i == some t.toCell) = true := by
  rw [lineWinner_eq] at h
  split_ifs at h with h1 h2
  · cases h; exact h1
  · cases h; exact h2

/-- The scan passes a line iff neither side fully owns it. -/
theorem lineWinner_none_iff (b : List Cell) (l : List Nat) :
    lineWinner b l = none ↔
      (l.all (fun i => b.get? i == some Cell.red) = false
        ∧ l.all (fun i => b.get? i == some Cell.purple) = false) := by
  rw [lineWinner_eq]
  split_ifs with h1 h2 <;> simp_all

/-- A winner reported by the loop comes from some scanned line. -/
theorem checkWinAux_sound (b : List Cell) (ls : List (List Nat)) (t : Team)
    (h : checkWinAux b ls = some t) :
    ∃ l ∈ ls, lineWinner b l = some t := by
  induction ls with
  | nil => exact Option.noConfusion h
  | cons l ls ih =>
    rw [checkWinAux] at h
    cases hl : lineWinner b l with
    | some u => rw [hl] at h; cases h; exact ⟨l, List.mem_cons_self l ls, hl⟩
    | none =>
      rw [hl] at h
      obtain ⟨l2, hl2, hw⟩ := ih h
      exact ⟨l2, List.mem_cons_of_mem _ hl2, hw⟩

/-- The loop returns `none` iff every scanned line is undecided. -/
theorem checkWinAux_none_iff (b : List Cell) (ls : List (List Nat)) :
    checkWinAux b ls = none ↔ ∀ l ∈ ls, lineWinner b l = none := by
  induction ls with
  | nil => simp [checkWinAux]
  | cons l ls ih =>
    rw [checkWinAux]
    cases hl : lineWinner b l with
    | some u => simp [hl, List.forall_mem_cons]
    | none => simp [hl, List.forall_mem_cons, ih]

/-- Unfolding of the spec-side predicate. -/
theorem sideHasLine_iff (s : Team) (b : List Cell) :
    sideHasLine s b = true ↔
      ∃ l ∈ specLines, l.all (fun i => b.get? i == some s.toCell) = true := by
  simp [sideHasLine, List.any_eq_true]

/-- Negative unfolding of the spec-side predicate. -/
theorem sideHasLine_false_iff (s : Team) (b : List Cell) :
    sideHasLine s b = false ↔
      ∀ l ∈ specLines, l.all (fun i => b.get? i == some s.toCell) = false := by
  simp [sideHasLine, List.any_eq_false]

/-- Soundness of `checkWinCondition` against the spec's 12 lines. -/
theorem checkWin_sound (b : List Cell) (t : Team)
    (h : checkWinCondition b = some t) : sideHasLine t b = true := by
  obtain ⟨l, hl, hw⟩ := checkWinAux_sound b lines t h
  rw [lines_eq_specLines] at hl
  exact (sideHasLine_iff t b).mpr ⟨l, hl, lineWinner_sound b l t hw⟩

/-- `checkWinCondition` returns `none` iff neither side has a full line. -/
theorem checkWin_none_iff (b : List Cell) :
    checkWinCondition b = none ↔
      (sideHasLine Team.red b = false ∧ sideHasLine Team.purple b = false) := by
  rw [checkWinCondition, checkWinAux_none_iff]
  constructor
  · intro h
    constructor
    · rw [sideHasLine_false_iff]
      intro l hl
      exact ((lineWinner_none_iff b l).mp (h l (by rwa [lines_eq_specLines]))).1
    · rw [sideHasLine_false_iff]
      intro l hl
      exact ((lineWinner_none_iff b l).mp (h l (by rwa [lines_eq_specLines]))).2
  · intro h l hl
    obtain ⟨h1, h2⟩ := h
    rw [lineWinner_none_iff]
    rw [sideHasLine_false_iff] at h1
    rw [sideHasLine_false_iff] at h2
    rw [lines_eq_specLines] at hl
    exact ⟨h1 l hl, h2 l hl⟩

/-- When one side has a full line and the other does not, the scan finds
exactly that side. -/
theorem checkWin_complete_unique (b : List Cell) (s : Team)
    (hs : sideHasLine s b = true) (ho : sideHasLine s.other b = false) :
    checkWinCondition b = some s := by
  cases hw : checkWinCondition b with
  | none =>
    rw [checkWin_none_iff] at hw
    cases s
    · exact absurd hs (by simp [hw.1])
    · exact absurd hs (by simp [hw.2])
  | some t =>
    by_cases hts : t = s
    · rw [hts]
    · have hst := checkWin_sound b t hw
      have : t = s.other := by cases t <;> cases s <;> simp_all [Team.other]
      rw [this] at hst
      exact absurd hst (by simp [ho])

/-! Claim theorems. -/

/-- C2: applying a match resolution to a square whose cell is already
non-empty leaves the cell's occupant, the turn marker, the status and the
winner untouched — `makeMove` returns the game exactly as fetched. -/
theorem makeMove_occupied_noop (g : Game) (sq : Int) (t : Team) (c : Cell)
    (hc : jsGet g.board_state sq = some c) (hne : c ≠ Cell.empty) :
    makeMove g sq t = g := by
  apply makeMove_skip
  rw [hc]
  intro h
  exact hne (Option.some.inj h)

/-- C2 witness: a second resolution aimed at the red-owned square 0 of
`gOcc` changes nothing. -/
theorem makeMove_occupied_noop_witness :
    jsGet gOcc.board_state 0 = some Cell.red ∧ Cell.red ≠ Cell.empty
      ∧ makeMove gOcc 0 Team.purple = gOcc :=
  ⟨by decide, by decide,
    makeMove_occupied_noop gOcc 0 Team.purple Cell.red (by decide) (by decide)⟩

/-- C10: for a 25-cell board and a square outside 0–24, the JS read yields
`undefined` (not `'empty'`), the guard takes the skip path, and `makeMove`
returns the game entirely unchanged. -/
theorem makeMove_out_of_range_noop (g : Game) (sq : Int) (t : Team)
    (hlen : g.board_state.length = 25) (hout : sq < 0 ∨ 25 ≤ sq) :
    makeMove g sq t = g := by
  apply makeMove_skip
  unfold jsGet
  rcases hout with h | h
  · rw [if_pos h]
    exact fun hx => Option.noConfusion hx
  · rw [if_neg (by omega)]
    have h25 : g.board_state.length ≤ sq.toNat := by omega
    rw [List.get?_eq_none.mpr h25]
    exact fun hx => Option.noConfusion hx

/-- C10 witness: square 25 on a fresh 25-cell game is a no-op. -/
theorem makeMove_out_of_range_noop_witness :
    gFresh.board_state.length = 25 ∧ makeMove gFresh 25 Team.red = gFresh :=
  ⟨by decide,
    makeMove_out_of_range_noop gFresh 25 Team.red (by decide) (Or.inr (by decide))⟩

/-- C8: `joinTeam` sets the matching player's team to the requested side and
unconditionally resets the ready flag to false, leaving every other field of
the row intact — also when the player already was on that side and ready. -/
theorem joinTeam_sets_team_resets_ready (players : List Player) (pid : String)
    (side : Team) (i : Nat) (q : Player)
    (hq : players.get? i = some q) (hid : q.id = pid) :
    (joinTeam players pid side).get? i
      = some { q with team := some side, is_ready := false } := by
  unfold joinTeam
  rw [List.get?_map, hq]
  simp [hid]

/-- C8 witness: `pRed` is already red and ready; joining red again still
resets the ready flag. -/
theorem joinTeam_sets_team_resets_ready_witness :
    pRed.team = some Team.red ∧ pRed.is_ready = true
      ∧ (joinTeam [pRed] "pr" Team.red).get? 0
          = some { pRed with team := some Team.red, is_ready := false } :=
  ⟨by decide, by decide,
    joinTeam_sets_team_resets_ready [pRed] "pr" Team.red 0 pRed (by decide) (by decide)⟩

/-- C6 counterexample: with red to move on an empty board, a purple match
win makes `makeMove` set the turn to red — the marker is not flipped to the
side opposite the turn holder. -/
theorem makeMove_turn_not_flipped_from_holder :
    gFresh.current_turn = Team.red
      ∧ jsGet gFresh.board_state 0 = some Cell.empty
      ∧ (makeMove gFresh 0 Team.purple).current_turn
          ≠ Team.other gFresh.current_turn := by decide

/-- C6 (amended): after a successful cell write the turn marker is set to
the side opposite the match-winning side (the `team` argument), not the turn
holder; the two coincide exactly when the turn holder won the match. -/
theorem makeMove_turn_opposite_winner (g : Game) (sq : Int) (t : Team)
    (hc : jsGet g.board_state sq = some Cell.empty) :
    (makeMove g sq t).current_turn = Team.other t := by
  rw [makeMove_write g sq t hc]

/-- C6 witness: a red win on square 0 of the fresh board hands the turn to
purple. -/
theorem makeMove_turn_opposite_winner_witness :
    jsGet gFresh.board_state 0 = some Cell.empty
      ∧ (makeMove gFresh 0 Team.red).current_turn = Team.other Team.red :=
  ⟨by decide, makeMove_turn_opposite_winner gFresh 0 Team.red (by decide)⟩

/-- C4 counterexample: resolving the already-completed match `mDone` (winner
red) again with purple overwrites the recorded winner — not a no-op. -/
theorem completeMatch_overwrites_winner :
    mDone.status = some MatchStatus.completed
      ∧ mDone.winner_team = some Team.red
      ∧ updateMatch mDone Team.purple ≠ mDone
      ∧ (updateMatch mDone Team.purple).winner_team = some Team.purple := by decide

/-- C4 (amended): resolving an already-completed match again with the same
winning side is a no-op, but `completeMatch`/`updateMatch` writes
unconditionally, so a duplicate delivery carrying a different side
overwrites the recorded winner (status stays `completed`). -/
theorem completeMatch_sameside_noop (m : GameMatch) (w : Team)
    (hst : m.status = some MatchStatus.completed)
    (hw : m.winner_team = some w) :
    updateMatch m w = m
      ∧ ∀ w2 : Team, (updateMatch m w2).winner_team = some w2
          ∧ (updateMatch m w2).status = some MatchStatus.completed := by
  constructor
  · cases m
    simp only [updateMatch, completeMatch] at *
    simp_all
  · intro w2
    exact ⟨rfl, rfl⟩

/-- C4 witness: re-resolving `mDone` with red (its recorded winner) changes
nothing; re-resolving with purple rewrites the winner. -/
theorem completeMatch_sameside_noop_witness :
    updateMatch mDone Team.red = mDone
      ∧ (updateMatch mDone Team.purple).winner_team = some Team.purple := by
  have h := completeMatch_sameside_noop mDone Team.red (by decide) (by decide)
  exact ⟨h.1, (h.2 Team.purple).1⟩

/-- C3 counterexample: `roomState0` already holds the non-terminal game
`gFresh`, yet `startGame` mutates the store (a second game is inserted) and
returns a game other than the existing one. -/
theorem startGame_not_idempotent :
    gFresh ∈ roomState0.games ∧ gFresh.status ≠ GameStatus.ended
      ∧ (startGame roomState0 "r1" "g2").1 ≠ roomState0
      ∧ (startGame roomState0 "r1" "g2").2 ≠ gFresh := by decide

/-- C3 (amended): `startGame` is not idempotent: it never consults existing
games, and even when a non-terminal game already exists for the room it
inserts one more fresh game (25 empty cells, red to move, in progress) and
marks the room in progress. -/
theorem startGame_always_inserts (s : RoomState) (roomId freshId : String)
    (g : Game) (hg : g ∈ s.games) (hnt : g.status ≠ GameStatus.ended) :
    (startGame s roomId freshId).1.games
        = (startGame s roomId freshId).2 :: s.games
      ∧ (startGame s roomId freshId).1.games.length = s.games.length + 1
      ∧ (startGame s roomId freshId).2.board_state = List.replicate 25 Cell.empty
      ∧ (startGame s roomId freshId).2.current_turn = Team.red
      ∧ (startGame s roomId freshId).2.status = GameStatus.in_progress
      ∧ (startGame s roomId freshId).1.room_status = RoomStatus.in_progress :=
  ⟨rfl, rfl, rfl, rfl, rfl, rfl⟩

/-- C3 witness: starting `roomState0` again inserts a second game. -/
theorem startGame_always_inserts_witness :
    gFresh ∈ roomState0.games
      ∧ (startGame roomState0 "r1" "g2").1.games.length
          = roomState0.games.length + 1 :=
  ⟨by decide,
    (startGame_always_inserts roomState0 "r1" "g2" gFresh (by decide) (by decide)).2.1⟩

/-- C5 counterexample: square 0 of `gOcc` is already red and both rosters
are non-empty, yet `createMatch` happily creates a match for square 0 — the
occupied-square challenge is not rejected. -/
theorem createMatch_accepts_occupied_square :
    jsGet gOcc.board_state 0 = some Cell.red
      ∧ (createMatch gOcc roster 0 MiniGame.rps 0 0).isSome = true := by decide

/-- C5 (amended): `createMatch` rejects a challenge iff one side's roster is
empty; it inspects neither the board nor existing matches, so challenges to
occupied or contested squares are accepted too.  A created match is active
and targets exactly the requested square of the requested game. -/
theorem createMatch_none_iff_empty_side (game : Game) (players : List Player)
    (sq : Int) (mg : MiniGame) (rp pp : Nat) :
    (createMatch game players sq mg rp pp = none
      ↔ players.filter (fun p => p.team == some Team.red) = []
        ∨ players.filter (fun p => p.team == some Team.purple) = [])
    ∧ ∀ mt : GameMatch, createMatch game players sq mg rp pp = some mt →
        mt.game_id = game.id ∧ mt.square = sq
          ∧ mt.mini_game = mg ∧ mt.status = some MatchStatus.active := by
  have hred : (players.filter (fun p => p.team == some Team.red)).length = 0
      ↔ players.filter (fun p => p.team == some Team.red) = [] :=
    List.length_eq_zero
  have hpurple : (players.filter (fun p => p.team == some Team.purple)).length = 0
      ↔ players.filter (fun p => p.team == some Team.purple) = [] :=
    List.length_eq_zero
  constructor
  · unfold createMatch
    dsimp only
    split_ifs with h
    · constructor
      · intro _
        exact (or_congr hred hpurple).mp h
      · intro _
        rfl
    · constructor
      · intro hx
        exact hx.elim
      · intro hrhs
        exact absurd ((or_congr hred hpurple).mpr hrhs) h
  · intro mt hmt
    unfold createMatch at hmt
    dsimp only at hmt
    split_ifs at hmt with h
    cases hmt
    exact ⟨rfl, rfl, rfl, rfl⟩

/-- C5 witness: with one player per side, challenging the empty square 1 of
the fresh game succeeds and yields the active match `mt0` on square 1. -/
theorem createMatch_none_iff_empty_side_witness :
    mt0.game_id = gFresh.id ∧ mt0.square = 1
      ∧ mt0.mini_game = MiniGame.quick_tap ∧ mt0.status = some MatchStatus.active :=
  (createMatch_none_iff_empty_side gFresh roster 1 MiniGame.quick_tap 0 0).2
    mt0 (by decide)

/-- C9 counterexample: each side has a ready member (so the claimed
force-start precondition holds for the host), yet the lobby's only start
affordance is disabled — no force-start path exists for any player. -/
theorem no_force_start_with_one_per_side :
    pRed.team = some Team.red ∧ pPurple.team = some Team.purple
      ∧ pRed.is_ready = true ∧ pPurple.is_ready = true
      ∧ canStart roster = false := by decide

/-- C9 (amended): there is no force-start.  The only start affordance is
`canStart`, which is computed identically for every participant (no host
check) and requires exactly 3 players per side with every teamed player
ready; `startGame` itself neither checks nor mutates any ready flag. -/
theorem canStart_requires_three_ready_per_side (players : List Player)
    (h : canStart players = true) :
    (players.filter (fun p => p.team == some Team.red)).length = 3
      ∧ (players.filter (fun p => p.team == some Team.purple)).length = 3
      ∧ ∀ p ∈ players, (p.team = some Team.red ∨ p.team = some Team.purple) →
          p.is_ready = true := by
  unfold canStart at h
  dsimp only at h
  rw [Bool.and_eq_true, Bool.and_eq_true] at h
  obtain ⟨⟨h1, h2⟩, h3⟩ := h
  refine ⟨of_decide_eq_true h1, of_decide_eq_true h2, ?_⟩
  intro p hp hteam
  rw [List.all_eq_true] at h3
  apply h3
  rw [List.mem_append]
  cases hteam with
  | inl ht => exact Or.inl (List.mem_filter.mpr ⟨hp, by simp [ht]⟩)
  | inr ht => exact Or.inr (List.mem_filter.mpr ⟨hp, by simp [ht]⟩)

/-- C9 witness: the full 3v3 all-ready roster enables the start affordance
and indeed has 3 red players. -/
theorem canStart_requires_three_ready_per_side_witness :
    canStart fullRoster = true
      ∧ (fullRoster.filter (fun p => p.team == some Team.red)).length = 3 :=
  ⟨by decide, (canStart_requires_three_ready_per_side fullRoster (by decide)).1⟩

/-- C7 counterexample: `gEnded` is ended with winner red, yet `makeMove` on
the still-empty square 4 mutates the game and rewrites the recorded winner
to purple — an ended game is not terminal and its winner is not immutable. -/
theorem makeMove_mutates_ended_game :
    gEnded.status = GameStatus.ended ∧ gEnded.winner_team = some Team.red
      ∧ makeMove gEnded 4 Team.purple ≠ gEnded
      ∧ (makeMove gEnded 4 Team.purple).winner_team = some Team.purple := by decide

/-- C7 (amended): the engine's only write guard is cell emptiness: a claimed
cell is never changed by any later `makeMove`, and `createMatch` reads
nothing of the game except its id — neither operation consults `status` or
`winner_team`, so an ended game accepts further applies and challenges. -/
theorem makeMove_preserves_claimed_cells (g : Game) (sq : Int) (t : Team)
    (i : Nat) (c : Cell) (hi : g.board_state.get? i = some c)
    (hc : c ≠ Cell.empty) :
    (makeMove g sq t).board_state.get? i = some c
      ∧ ∀ (st : GameStatus) (players : List Player) (sq2 : Int) (mg : MiniGame)
          (rp pp : Nat),
          createMatch { g with status := st } players sq2 mg rp pp
            = createMatch g players sq2 mg rp pp := by
  constructor
  · by_cases hg : jsGet g.board_state sq = some Cell.empty
    · rw [makeMove_write g sq t hg]
      unfold jsGet at hg
      split_ifs at hg with hneg
      show (jsSet g.board_state sq t.toCell).get? i = some c
      unfold jsSet
      rw [if_neg hneg]
      have hne : sq.toNat ≠ i := by
        intro he
        rw [he] at hg
        rw [hg] at hi
        exact hc (Option.some.inj hi).symm
      rw [List.get?_eq_getElem?, List.getElem?_set_ne hne, ← List.get?_eq_getElem?]
      exact hi
    · rw [makeMove_skip g sq t hg]
      exact hi
  · intro st players sq2 mg rp pp
    rfl

/-- C7 witness: after red claims square 0 of the fresh game, a later apply
to square 1 leaves cell 0 red. -/
theorem makeMove_preserves_claimed_cells_witness :
    gOcc.board_state.get? 0 = some Cell.red
      ∧ (makeMove gOcc 1 Team.purple).board_state.get? 0 = some Cell.red :=
  ⟨by decide,
    (makeMove_preserves_claimed_cells gOcc 1 Team.purple 0 Cell.red
      (by decide) (by decide)).1⟩

/-- C1 counterexample: on `doubleBoard` both sides own a complete row;
purple owns one of the 12 lines, yet `checkWinCondition` does not return
purple — the claimed per-side iff fails on such boards. -/
theorem checkWin_per_side_iff_fails :
    sideHasLine Team.purple doubleBoard = true
      ∧ checkWinCondition doubleBoard ≠ some Team.purple := by decide

/-- C1 (amended): the scan uses exactly the spec's 12 lines (5 rows, 5
columns, 2 diagonals); a returned side always owns one of them; `none` comes
back iff neither side owns a line; on every board where at most one side
owns a line the per-side iff of the claim holds; and after a successful cell
write `makeMove` records exactly `checkWinCondition` of the new board as
winner and sets status `ended` iff that winner is non-null. -/
theorem checkWin_sound_and_complete (b : List Cell) (s : Team) (g : Game)
    (sq : Int) (t : Team)
    (hone : ¬(sideHasLine Team.red b = true ∧ sideHasLine Team.purple b = true))
    (hcell : jsGet g.board_state sq = some Cell.empty) :
    lines = specLines
      ∧ (checkWinCondition b = some s ↔ sideHasLine s b = true)
      ∧ (∀ w : Team, (makeMove g sq t).winner_team = some w →
          sideHasLine w (makeMove g sq t).board_state = true)
      ∧ ((makeMove g sq t).status = GameStatus.ended
          ↔ (makeMove g sq t).winner_team ≠ none) := by
  refine ⟨lines_eq_specLines, ⟨checkWin_sound b s, ?_⟩, ?_, ?_⟩
  · intro hs
    apply checkWin_complete_unique b s hs
    cases s
    · cases hp : sideHasLine Team.purple b
      · exact hp
      · exact absurd ⟨hs, hp⟩ hone
    · cases hp : sideHasLine Team.red b
      · exact hp
      · exact absurd ⟨hp, hs⟩ hone
  · intro w hw
    rw [makeMove_write g sq t hcell] at hw ⊢
    exact checkWin_sound _ w hw
  · rw [makeMove_write g sq t hcell]
    dsimp only
    cases hcw : checkWinCondition (jsSet g.board_state sq t.toCell)
    · simp [hcw]
    · simp [hcw]

/-- C1 witness: on the board with only red's full top row the iff holds, and
completing that row through `makeMove` ends the game with a non-null winner. -/
theorem checkWin_sound_and_complete_witness :
    (checkWinCondition rowBoard = some Team.red
        ↔ sideHasLine Team.red rowBoard = true)
      ∧ ((makeMove gFresh 0 Team.red).status = GameStatus.ended
          ↔ (makeMove gFresh 0 Team.red).winner_team ≠ none) := by
  have h := checkWin_sound_and_complete rowBoard Team.red gFresh 0 Team.red
    (by decide) (by decide)
  exact ⟨h.2.1, h.2.2.2⟩
